import Mathlib

/-!
# Verification of the JobFunnel scraper orchestration core

Shallow embedding of the two scraper modules
(`jobfunnel/backend/scrapers/monster.py` and
`jobfunnel/backend/scrapers/glassdoor/static.py`) together with the
configuration module, and proofs about the claims of the specification.

Conventions of the embedding:
* `BeautifulSoup` fragments are opaque; we represent a fragment by a `Nat` id.
* `requests.Session` transport is an oracle `String → Option Page`:
  `none` models a raised transport exception, `some` a parsed response.
* Python exceptions that escape a function are modelled by `Except`;
  an exception raised inside a `ThreadPoolExecutor` future whose result is
  never retrieved (the GlassDoor workers) is modelled by the worker
  contributing nothing, because `concurrent.futures.wait` does not re-raise.
* Thread interleaving only permutes the order in which workers append to the
  shared list; the model fixes submission order, which determines the same
  multiset of fragments.
-/

/-- The `JobField` enum (`jobfunnel/resources`): the closed set of semantic
job attributes used by the two scrapers under verification. -/
inductive JobField where
  | TITLE
  | COMPANY
  | LOCATION
  | POST_DATE
  | URL
  | KEY_ID
  | DESCRIPTION
  | TAGS
  deriving DecidableEq, Repr, Fintype

/-- `MAX_RESULTS_PER_MONSTER_PAGE = 25` (monster.py). -/
def MAX_RESULTS_PER_MONSTER_PAGE : Nat := 25

namespace BaseMonsterScraper

/-- `BaseMonsterScraper.min_required_job_fields` (monster.py). -/
def min_required_job_fields : List JobField :=
  [JobField.TITLE, JobField.COMPANY, JobField.LOCATION,
   JobField.KEY_ID, JobField.URL]

/-- `BaseMonsterScraper.job_get_fields` (monster.py). -/
def job_get_fields : List JobField :=
  [JobField.TITLE, JobField.COMPANY, JobField.LOCATION,
   JobField.POST_DATE, JobField.URL]

/-- `BaseMonsterScraper.job_set_fields` (monster.py). -/
def job_set_fields : List JobField :=
  [JobField.KEY_ID, JobField.DESCRIPTION]

end BaseMonsterScraper

namespace StaticGlassDoorScraper

/-- `StaticGlassDoorScraper.min_required_job_fields` (glassdoor/static.py). -/
def min_required_job_fields : List JobField :=
  [JobField.TITLE, JobField.COMPANY, JobField.LOCATION,
   JobField.KEY_ID, JobField.URL]

/-- `StaticGlassDoorScraper.job_get_fields` (glassdoor/static.py). -/
def job_get_fields : List JobField :=
  [JobField.TITLE, JobField.COMPANY, JobField.LOCATION,
   JobField.POST_DATE, JobField.URL, JobField.KEY_ID]

/-- `StaticGlassDoorScraper.job_set_fields` (glassdoor/static.py). -/
def job_set_fields : List JobField :=
  [JobField.DESCRIPTION]

end StaticGlassDoorScraper

/-! ## Result-count parsing

Both planners scrape a textual result count and take
`int(re.findall(r'(\d+)', txt)[0])`; GlassDoor first does
`txt.replace(',', '')`, Monster does not. -/

/-- Python `str.strip()`: remove leading and trailing whitespace. -/
def pyStrip (cs : List Char) : List Char :=
  ((cs.dropWhile Char.isWhitespace).reverse.dropWhile Char.isWhitespace).reverse

/-- First match of `re.findall(r'(\d+)', ·)`: the first maximal run of digit
characters, or `none` when the text has no digit (the `[0]` index then
raises `IndexError`). -/
def firstDigitRun : List Char → Option (List Char)
  | [] => none
  | c :: cs =>
    if c.isDigit then some (c :: cs.takeWhile Char.isDigit)
    else firstDigitRun cs

/-- Python `int(·)` on a string of decimal digits. -/
def digitsToNat (ds : List Char) : Nat :=
  ds.foldl (fun acc c => acc * 10 + (c.toNat - 48)) 0

/-- monster.py `_get_num_search_result_pages` count parsing (lines 162-163):
`num_res = soup_base.find('h2', 'figure').text.strip()` followed by
`int(re.findall(r'(\d+)', num_res)[0])`.  There is no comma stripping.
`none` models the raised `IndexError` when the text has no digits. -/
def monsterExtractNumRes (s : String) : Option Nat :=
  (firstDigitRun (pyStrip s.data)).map digitsToNat

/-- glassdoor/static.py `_get_num_search_result_pages` count parsing
(lines 178-179): `.text.strip()` followed by
`int(re.findall(r'(\d+)', num_res.replace(',', ''))[0])`. -/
def gdExtractNumRes (s : String) : Option Nat :=
  (firstDigitRun ((pyStrip s.data).filter (fun c => c != ','))).map digitsToNat

/-- `int(ceil(num_res / page_size))` with Python 3 true division, embedded
as the exact ceiling of the rational quotient (`Rat.ceil` of the kernel
rational `mkRat n s`, proven below to agree with the mathematical `⌈·⌉`). -/
def pyCeilDiv (n s : Nat) : Nat :=
  (Rat.ceil (mkRat n s)).toNat

/-! ## The `_IP<digits>.` page-index substitution (glassdoor/static.py)

`page_url = re.sub(r'_IP\d+\.', f'_IP{page}.', full_url)` -/

/-- Try to match the regex `_IP\d+\.` at the head of the character list;
on success return the remainder after the match. -/
def matchIPAt (cs : List Char) : Option (List Char) :=
  match cs with
  | a :: b :: c :: rest =>
    if a = '_' ∧ b = 'I' ∧ c = 'P' then
      match rest.dropWhile Char.isDigit with
      | '.' :: rest2 =>
        if (rest.takeWhile Char.isDigit).isEmpty then none else some rest2
      | _ => none
    else none
  | _ => none

/-- `re.sub` body: scan left to right, replacing each non-overlapping match
of `_IP\d+\.` by `repl`.  `fuel` bounds the recursion (a match consumes at
least one character, so `cs.length` fuel is always enough). -/
def subIPAux (repl : List Char) : Nat → List Char → List Char
  | 0, cs => cs
  | _ + 1, [] => []
  | fuel + 1, c :: cs =>
    match matchIPAt (c :: cs) with
    | some rest => repl ++ subIPAux repl fuel rest
    | none => c :: subIPAux repl fuel cs

/-- `re.sub(r'_IP\d+\.', f'_IP{page}.', s)`. -/
def pySubIP (page : Nat) (s : String) : String :=
  ⟨subIPAux ("_IP".data ++ (toString page).data ++ ['.']) s.data.length s.data⟩

/-- Does some suffix of `cs` match `_IP\d+\.`?  (`re.search` would find a
match iff this is `true`.) -/
def hasIPMatch : List Char → Bool
  | [] => false
  | c :: cs => (matchIPAt (c :: cs)).isSome || hasIPMatch cs

/-! ## Scraper world model

Transport and parsed documents are opaque capabilities.  A parsed
search-results page is reduced to exactly the features the scraper code
reads from it; fragments (`BeautifulSoup` listing subtrees) are opaque ids. -/

/-- Errors escaping the embedded scrape functions (uncaught Python
exceptions, by raise site). -/
inductive ScrapeError where
  /-- `requests` transport exception escaping a synchronous fetch. -/
  | transport
  /-- `AttributeError`: the result-count element is missing, so `.text`
  is called on `None`. -/
  | noCountElement
  /-- `IndexError` from `re.findall(...)[0]`: no digit run in the count
  indicator text. -/
  | resultCountUnparsable
  /-- `AttributeError`: the `li.next` link is missing on the first results
  page while a page beyond the first is being addressed. -/
  | noNextLink
  deriving DecidableEq, Repr

/-- A parsed Monster search-results page, reduced to what the code reads:
the `h2.figure` result-count text (if the element exists) and the
`div.flex-row` listing fragments. -/
structure MonPage where
  countText : Option String
  fragments : List Nat
  deriving Repr

/-- The Monster scraper's world: `session.get` by URL; `none` models a
raised transport exception. -/
structure MonWorld where
  get : String → Option MonPage

/-- monster.py `_get_num_search_result_pages(search_url)`: fetch the search
URL, read the `h2.figure` text, parse the count, divide by
`MAX_RESULTS_PER_MONSTER_PAGE`. -/
def monGetNumSearchResultPages (w : MonWorld) (search_url : String) :
    Except ScrapeError Nat :=
  match w.get search_url with
  | none => .error .transport
  | some page =>
    match page.countText with
    | none => .error .noCountElement
    | some t =>
      match monsterExtractNumRes t with
      | none => .error .resultCountUnparsable
      | some n => .ok (pyCeilDiv n MAX_RESULTS_PER_MONSTER_PAGE)

/-- monster.py `_get_job_soups_from_search_page(search_url, pages)`:
a single fetch of `f'{search_url}&start={pages}'` (the page *count* is used
as the start offset), returning that one page's `div.flex-row` fragments.
No exception handling: a transport failure propagates. -/
def monGetJobSoupsFromSearchPage (w : MonWorld) (search_url : String)
    (pages : Nat) : Except ScrapeError (List Nat) :=
  match w.get (search_url ++ "&start=" ++ toString pages) with
  | none => .error .transport
  | some page => .ok page.fragments

/-- monster.py `get_job_soups_from_search_result_listings`, returning the
collected fragments together with the trace of URLs fetched (in program
order). -/
def monScrapeListings (w : MonWorld) (search_url : String) :
    Except ScrapeError (List Nat × List String) :=
  match monGetNumSearchResultPages w search_url with
  | .error e => .error e
  | .ok pages =>
    match monGetJobSoupsFromSearchPage w search_url pages with
    | .error e => .error e
    | .ok frags =>
      .ok (frags, [search_url, search_url ++ "&start=" ++ toString pages])

/-- A parsed GlassDoor search-results page, reduced to what the code reads:
the `p.jobsCount` text, the `li.next > a` href, and the `li.jl`
listing fragments. -/
structure GDPage where
  jobsCountText : Option String
  nextHref : Option String
  fragments : List Nat
  deriving Repr

/-- The GlassDoor scraper's world: the response to the initial
`session.post(search_url, data)` — `none` for a transport failure, else
the response URL (`request_html.url`) and its parsed document — plus
`session.get` by URL for the page workers, and the configured domain.
`max_results_per_page` lives in the GlassDoor base scraper (not under
`src/`), so the page size is passed as a parameter. -/
structure GDWorld where
  postFirst : Option (String × GDPage)
  get : String → Option GDPage
  domain : String

/-- glassdoor/static.py `_get_num_search_result_pages(soup_base)`:
read `p.jobsCount`, parse the count, divide by `max_results_per_page`. -/
def gdGetNumSearchResultPages (soup : GDPage) (pageSize : Nat) :
    Except ScrapeError Nat :=
  match soup.jobsCountText with
  | none => .error .noCountElement
  | some t =>
    match gdExtractNumRes t with
    | none => .error .resultCountUnparsable
    | some n => .ok (pyCeilDiv n pageSize)

/-- glassdoor/static.py `_search_page_for_job_soups` as executed inside a
`ThreadPoolExecutor` future whose exception is never retrieved
(`wait(futures_list)` does not re-raise): a failed `session.get` makes the
worker contribute no fragments. -/
def gdWorkerFetch (w : GDWorld) (url : String) : List Nat :=
  match w.get url with
  | none => []
  | some page => page.fragments

/-- `f'https://www.glassdoor.{domain}{part_url}'`. -/
def gdFullNextUrl (domain part_url : String) : String :=
  "https://www.glassdoor." ++ domain ++ part_url

/-- The page-URL construction for a page beyond the first:
`re.sub(r'_IP\d+\.', f'_IP{page}.', f'https://www.glassdoor.{domain}{part_url}')`. -/
def gdPageUrl (domain part_url : String) (page : Nat) : String :=
  pySubIP page (gdFullNextUrl domain part_url)

/-- The `for page in range(1, n_pages + 1)` loop body of
`get_job_soups_from_search_result_listings`, processing the given page
indices: page 1 submits a worker on `request_html.url`; a later page reads
the `li.next` href (raising `AttributeError` when it is missing) and
submits a worker on the substituted URL.  Returns the aggregated fragments
and the worker fetch trace in submission order. -/
def gdProcessPages (w : GDWorld) (url1 : String) (soup : GDPage) :
    List Nat → Except ScrapeError (List Nat × List String)
  | [] => .ok ([], [])
  | p :: rest =>
    if p = 1 then
      match gdProcessPages w url1 soup rest with
      | .error e => .error e
      | .ok (fs, tr) => .ok (gdWorkerFetch w url1 ++ fs, url1 :: tr)
    else
      match soup.nextHref with
      | none => .error .noNextLink
      | some part_url =>
        let page_url := gdPageUrl w.domain part_url p
        match gdProcessPages w url1 soup rest with
        | .error e => .error e
        | .ok (fs, tr) => .ok (gdWorkerFetch w page_url ++ fs, page_url :: tr)

/-- glassdoor/static.py `get_job_soups_from_search_result_listings`:
POST the search URL (a transport failure here propagates), plan the page
count from the response, run the page loop, join the workers.  Returns the
aggregated fragments and the full fetch trace (the initial POST first). -/
def gdScrapeListings (w : GDWorld) (search_url : String) (pageSize : Nat) :
    Except ScrapeError (List Nat × List String) :=
  match w.postFirst with
  | none => .error .transport
  | some (url1, soup) =>
    match gdGetNumSearchResultPages soup pageSize with
    | .error e => .error e
    | .ok n =>
      match gdProcessPages w url1 soup (List.range' 1 n) with
      | .error e => .error e
      | .ok (fs, tr) => .ok (fs, search_url :: tr)

/-! ## Record construction and required-field validation -/

/-- Modelled from the spec: the per-fragment record-building step of
`BaseScraper.scrape` (`jobfunnel/backend/scrapers/base.py`, not under
`src/`).  Extraction runs over every field in `job_get_fields` and
`job_set_fields`; a field whose extraction fails is simply absent from the
record.  The extraction outcome for each field is an oracle
`JobField → Option String` (values are opaque). -/
def buildRecord (extract : JobField → Option String)
    (getFields setFields : List JobField) : JobField → Option String :=
  fun f => if f ∈ getFields ∨ f ∈ setFields then extract f else none

/-- Modelled from the spec: the required-field validation of
`BaseScraper.scrape` (`jobfunnel/backend/scrapers/base.py`, not under
`src/`): a JobRecord is accepted only if every field in
`min_required_job_fields` was successfully extracted; otherwise the record
is dropped (zero records from that fragment) without failing the scrape. -/
def scrapeFragment (extract : JobField → Option String)
    (getFields setFields required : List JobField) :
    Option (JobField → Option String) :=
  if required.all (fun f => (buildRecord extract getFields setFields f).isSome)
  then some (buildRecord extract getFields setFields) else none

/-- A sample extraction outcome: every field extracts except POST_DATE. -/
def sampleExtract : JobField → Option String :=
  fun f => if f = JobField.POST_DATE then none else some "v"

/-! ## Radius conversion (monster.py locale subclasses) -/

namespace MonsterScraperCANEng

/-- `MonsterScraperCANEng._convert_radius` (monster.py lines 197-212). -/
def convert_radius (radius : Int) : Int :=
  if radius < 5 then 0
  else if 5 ≤ radius ∧ radius < 10 then 5
  else if 10 ≤ radius ∧ radius < 20 then 10
  else if 20 ≤ radius ∧ radius < 50 then 20
  else if 50 ≤ radius ∧ radius < 100 then 50
  else if radius ≥ 100 then 100
  else radius

end MonsterScraperCANEng

namespace MonsterScraperUSAEng

/-- `MonsterScraperUSAEng._convert_radius` (monster.py lines 219-246). -/
def convert_radius (radius : Int) : Int :=
  if radius < 5 then 0
  else if 5 ≤ radius ∧ radius < 10 then 5
  else if 10 ≤ radius ∧ radius < 20 then 10
  else if 20 ≤ radius ∧ radius < 30 then 20
  else if 30 ≤ radius ∧ radius < 40 then 30
  else if 40 ≤ radius ∧ radius < 50 then 40
  else if 50 ≤ radius ∧ radius < 60 then 50
  else if 60 ≤ radius ∧ radius < 75 then 60
  else if 75 ≤ radius ∧ radius < 100 then 75
  else if 100 ≤ radius ∧ radius < 150 then 100
  else if 150 ≤ radius ∧ radius < 200 then 150
  else if radius ≥ 200 then 200
  else radius

end MonsterScraperUSAEng

/-! ## Derived page-addressing helpers and fixture worlds -/

/-- The URL the page loop hands to the worker for page index `p`: page 1 is
the response URL of the initial POST, a later page the substituted
next-link URL. -/
def gdPageUrlOf (w : GDWorld) (url1 part_url : String) (p : Nat) : String :=
  if p = 1 then url1 else gdPageUrl w.domain part_url p

/-- The fragments the worker for page index `p` contributes. -/
def gdPageFetch (w : GDWorld) (url1 part_url : String) (p : Nat) : List Nat :=
  gdWorkerFetch w (gdPageUrlOf w url1 part_url p)

/-- Fixture: Monster search page reporting 26 results (2 pages at 25 per
page) carrying fragment 1; the fetch of `SU&start=2` raises. -/
def monFailWorld : MonWorld :=
  ⟨fun u => if u = "SU" then some ⟨some "26 results", [1]⟩ else none⟩

/-- Fixture: Monster search page reporting 26 results carrying fragment 1,
and the page at `SU&start=2` carrying fragment 2. -/
def monTwoPageWorld : MonWorld :=
  ⟨fun u =>
    if u = "SU" then some ⟨some "26 results", [1]⟩
    else if u = "SU&start=2" then some ⟨none, [2]⟩
    else none⟩

/-- Fixture: GlassDoor first page reporting 87 results but carrying no
`li.next` link. -/
def gdNoNextWorld : GDWorld :=
  ⟨some ("SU", ⟨some "87 jobs", none, [10]⟩), fun _ => none, "com"⟩

/-- Fixture: GlassDoor first page whose count indicator has no digits. -/
def gdUnparsableWorld : GDWorld :=
  ⟨some ("SU", ⟨some "no jobs found", some "/x.htm", [5]⟩),
   fun _ => none, "com"⟩

/-- Fixture: GlassDoor search with a one-page result; the page-1 worker
re-fetches the POST response URL `SU`. -/
def gdDoubleFetchWorld : GDWorld :=
  ⟨some ("SU", ⟨some "1 job", some "/x.htm", [7]⟩),
   fun u => if u = "SU" then some ⟨none, none, [7]⟩ else none, "com"⟩

/-- Fixture: GlassDoor search reporting 75 results (3 pages at 25 per page)
whose next-link href contains no `_IP<digits>.` token. -/
def gdDupWorld : GDWorld :=
  ⟨some ("SU", ⟨some "75 jobs", some "/Jobs/x.htm", [8]⟩),
   fun u =>
     if u = "SU" then some ⟨none, none, [8]⟩
     else if u = "https://www.glassdoor.com/Jobs/x.htm" then
       some ⟨none, none, [9]⟩
     else none, "com"⟩

/-- Fixture: GlassDoor search reporting 75 results (3 pages at 25 per page)
with a proper `_IP1.` token in the next link; the page-3 fetch raises,
pages 1 and 2 succeed. -/
def gdOneFailWorld : GDWorld :=
  ⟨some ("SU", ⟨some "75 jobs", some "_IP1.htm", [8]⟩),
   fun u =>
     if u = "SU" then some ⟨none, none, [8]⟩
     else if u = "https://www.glassdoor.com_IP2.htm" then
       some ⟨none, none, [9]⟩
     else none, "com"⟩

/-- C8: For every scraper the ExtractionSpec invariant holds: every required
field is in the union of the get-fields and set-fields, and no field is in
both the get-fields and the set-fields of the same scraper. -/
theorem extraction_spec_invariant :
    (∀ f ∈ BaseMonsterScraper.min_required_job_fields,
        f ∈ BaseMonsterScraper.job_get_fields ∨
        f ∈ BaseMonsterScraper.job_set_fields) ∧
    (∀ f : JobField,
        ¬(f ∈ BaseMonsterScraper.job_get_fields ∧
          f ∈ BaseMonsterScraper.job_set_fields)) ∧
    (∀ f ∈ StaticGlassDoorScraper.min_required_job_fields,
        f ∈ StaticGlassDoorScraper.job_get_fields ∨
        f ∈ StaticGlassDoorScraper.job_set_fields) ∧
    (∀ f : JobField,
        ¬(f ∈ StaticGlassDoorScraper.job_get_fields ∧
          f ∈ StaticGlassDoorScraper.job_set_fields)) := by
  refine ⟨?_, ?_, ?_, ?_⟩ <;> decide

/-- C2 counterexample: the Monster planner does not strip thousands
separators, so the well-formed count indicator "1,234 jobs" yields 1
(the first digit run), not 1234 as claimed. -/
theorem monster_count_comma_counterexample :
    monsterExtractNumRes "1,234 jobs" = some 1 ∧
    monsterExtractNumRes "1,234 jobs" ≠ some 1234 := by
  constructor
  · decide
  · decide

/-- C2 amended: the GlassDoor planner strips thousands separators and then
takes the first digit run, so "1,234 jobs" yields 1234 and "87" yields 87;
the Monster planner takes the first digit run without stripping separators,
so "87" yields 87 but "1,234 jobs" yields 1. -/
theorem result_count_extraction :
    gdExtractNumRes "1,234 jobs" = some 1234 ∧
    gdExtractNumRes "87" = some 87 ∧
    monsterExtractNumRes "87" = some 87 ∧
    monsterExtractNumRes "1,234 jobs" = some 1 := by
  refine ⟨?_, ?_, ?_, ?_⟩ <;> decide

theorem can_radius_mem (r : Int) :
    MonsterScraperCANEng.convert_radius r ∈ ([0, 5, 10, 20, 50, 100] : List Int) := by
  unfold MonsterScraperCANEng.convert_radius
  split_ifs <;> first | decide | (exfalso; omega)

theorem usa_radius_cases (r : Int) :
    (r < 5 ∧ MonsterScraperUSAEng.convert_radius r = 0) ∨
    (5 ≤ r ∧ r < 10 ∧ MonsterScraperUSAEng.convert_radius r = 5) ∨
    (10 ≤ r ∧ r < 20 ∧ MonsterScraperUSAEng.convert_radius r = 10) ∨
    (20 ≤ r ∧ r < 30 ∧ MonsterScraperUSAEng.convert_radius r = 20) ∨
    (30 ≤ r ∧ r < 40 ∧ MonsterScraperUSAEng.convert_radius r = 30) ∨
    (40 ≤ r ∧ r < 50 ∧ MonsterScraperUSAEng.convert_radius r = 40) ∨
    (50 ≤ r ∧ r < 60 ∧ MonsterScraperUSAEng.convert_radius r = 50) ∨
    (60 ≤ r ∧ r < 75 ∧ MonsterScraperUSAEng.convert_radius r = 60) ∨
    (75 ≤ r ∧ r < 100 ∧ MonsterScraperUSAEng.convert_radius r = 75) ∨
    (100 ≤ r ∧ r < 150 ∧ MonsterScraperUSAEng.convert_radius r = 100) ∨
    (150 ≤ r ∧ r < 200 ∧ MonsterScraperUSAEng.convert_radius r = 150) ∨
    (200 ≤ r ∧ MonsterScraperUSAEng.convert_radius r = 200) := by
  by_cases h1 : r < 5
  · have hv : MonsterScraperUSAEng.convert_radius r = 0 := by
      unfold MonsterScraperUSAEng.convert_radius
      rw [if_pos h1]
    exact Or.inl ⟨h1, hv⟩
  by_cases h2 : 5 ≤ r ∧ r < 10
  · have hv : MonsterScraperUSAEng.convert_radius r = 5 := by
      unfold MonsterScraperUSAEng.convert_radius
      rw [if_neg h1, if_pos h2]
    exact Or.inr (Or.inl ⟨h2.1, h2.2, hv⟩)
  by_cases h3 : 10 ≤ r ∧ r < 20
  · have hv : MonsterScraperUSAEng.convert_radius r = 10 := by
      unfold MonsterScraperUSAEng.convert_radius
      rw [if_neg h1, if_neg h2, if_pos h3]
    exact Or.inr (Or.inr (Or.inl ⟨h3.1, h3.2, hv⟩))
  by_cases h4 : 20 ≤ r ∧ r < 30
  · have hv : MonsterScraperUSAEng.convert_radius r = 20 := by
      unfold MonsterScraperUSAEng.convert_radius
      rw [if_neg h1, if_neg h2, if_neg h3, if_pos h4]
    exact Or.inr (Or.inr (Or.inr (Or.inl ⟨h4.1, h4.2, hv⟩)))
  by_cases h5 : 30 ≤ r ∧ r < 40
  · have hv : MonsterScraperUSAEng.convert_radius r = 30 := by
      unfold MonsterScraperUSAEng.convert_radius
      rw [if_neg h1, if_neg h2, if_neg h3, if_neg h4, if_pos h5]
    exact Or.inr (Or.inr (Or.inr (Or.inr (Or.inl ⟨h5.1, h5.2, hv⟩))))
  by_cases h6 : 40 ≤ r ∧ r < 50
  · have hv : MonsterScraperUSAEng.convert_radius r = 40 := by
      unfold MonsterScraperUSAEng.convert_radius
      rw [if_neg h1, if_neg h2, if_neg h3, if_neg h4, if_neg h5, if_pos h6]
    exact Or.inr (Or.inr (Or.inr (Or.inr (Or.inr (Or.inl ⟨h6.1, h6.2, hv⟩)))))
  by_cases h7 : 50 ≤ r ∧ r < 60
  · have hv : MonsterScraperUSAEng.convert_radius r = 50 := by
      unfold MonsterScraperUSAEng.convert_radius
      rw [if_neg h1, if_neg h2, if_neg h3, if_neg h4, if_neg h5, if_neg h6, if_pos h7]
    exact Or.inr (Or.inr (Or.inr (Or.inr (Or.inr (Or.inr (Or.inl ⟨h7.1, h7.2, hv⟩))))))
  by_cases h8 : 60 ≤ r ∧ r < 75
  · have hv : MonsterScraperUSAEng.convert_radius r = 60 := by
      unfold MonsterScraperUSAEng.convert_radius
      rw [if_neg h1, if_neg h2, if_neg h3, if_neg h4, if_neg h5, if_neg h6, if_neg h7, if_pos h8]
    exact Or.inr (Or.inr (Or.inr (Or.inr (Or.inr (Or.inr (Or.inr (Or.inl ⟨h8.1, h8.2, hv⟩)))))))
  by_cases h9 : 75 ≤ r ∧ r < 100
  · have hv : MonsterScraperUSAEng.convert_radius r = 75 := by
      unfold MonsterScraperUSAEng.convert_radius
      rw [if_neg h1, if_neg h2, if_neg h3, if_neg h4, if_neg h5, if_neg h6, if_neg h7, if_neg h8, if_pos h9]
    exact Or.inr (Or.inr (Or.inr (Or.inr (Or.inr (Or.inr (Or.inr (Or.inr (Or.inl ⟨h9.1, h9.2, hv⟩))))))))
  by_cases h10 : 100 ≤ r ∧ r < 150
  · have hv : MonsterScraperUSAEng.convert_radius r = 100 := by
      unfold MonsterScraperUSAEng.convert_radius
      rw [if_neg h1, if_neg h2, if_neg h3, if_neg h4, if_neg h5, if_neg h6, if_neg h7, if_neg h8, if_neg h9, if_pos h10]
    exact Or.inr (Or.inr (Or.inr (Or.inr (Or.inr (Or.inr (Or.inr (Or.inr (Or.inr (Or.inl ⟨h10.1, h10.2, hv⟩)))))))))
  by_cases h11 : 150 ≤ r ∧ r < 200
  · have hv : MonsterScraperUSAEng.convert_radius r = 150 := by
      unfold MonsterScraperUSAEng.convert_radius
      rw [if_neg h1, if_neg h2, if_neg h3, if_neg h4, if_neg h5, if_neg h6, if_neg h7, if_neg h8, if_neg h9, if_neg h10, if_pos h11]
    exact Or.inr (Or.inr (Or.inr (Or.inr (Or.inr (Or.inr (Or.inr (Or.inr (Or.inr (Or.inr (Or.inl ⟨h11.1, h11.2, hv⟩))))))))))
  by_cases h12 : r ≥ 200
  · have hv : MonsterScraperUSAEng.convert_radius r = 200 := by
      unfold MonsterScraperUSAEng.convert_radius
      rw [if_neg h1, if_neg h2, if_neg h3, if_neg h4, if_neg h5, if_neg h6, if_neg h7, if_neg h8, if_neg h9, if_neg h10, if_neg h11, if_pos h12]
    exact Or.inr (Or.inr (Or.inr (Or.inr (Or.inr (Or.inr (Or.inr (Or.inr (Or.inr (Or.inr (Or.inr (⟨h12, hv⟩)))))))))))
  exfalso; omega
theorem usa_radius_mem (r : Int) :
    MonsterScraperUSAEng.convert_radius r ∈
      ([0, 5, 10, 20, 30, 40, 50, 60, 75, 100, 150, 200] : List Int) := by
  have c := usa_radius_cases r
  simp only [List.mem_cons, List.not_mem_nil, or_false]
  generalize hv : MonsterScraperUSAEng.convert_radius r = v at c ⊢
  omega

theorem can_radius_mono (r1 r2 : Int) (h : r1 ≤ r2) :
    MonsterScraperCANEng.convert_radius r1 ≤ MonsterScraperCANEng.convert_radius r2 := by
  unfold MonsterScraperCANEng.convert_radius
  split_ifs <;> omega

theorem usa_radius_mono (r1 r2 : Int) (h : r1 ≤ r2) :
    MonsterScraperUSAEng.convert_radius r1 ≤ MonsterScraperUSAEng.convert_radius r2 := by
  have c1 := usa_radius_cases r1
  have c2 := usa_radius_cases r2
  generalize hv1 : MonsterScraperUSAEng.convert_radius r1 = v1 at c1 ⊢
  generalize hv2 : MonsterScraperUSAEng.convert_radius r2 = v2 at c2 ⊢
  omega

theorem can_radius_idem (r : Int) :
    MonsterScraperCANEng.convert_radius (MonsterScraperCANEng.convert_radius r) =
      MonsterScraperCANEng.convert_radius r := by
  have h := can_radius_mem r
  simp only [List.mem_cons, List.not_mem_nil, or_false] at h
  rcases h with h | h | h | h | h | h <;> rw [h] <;> decide

theorem usa_radius_idem (r : Int) :
    MonsterScraperUSAEng.convert_radius (MonsterScraperUSAEng.convert_radius r) =
      MonsterScraperUSAEng.convert_radius r := by
  have c1 := usa_radius_cases r
  have c2 := usa_radius_cases (MonsterScraperUSAEng.convert_radius r)
  generalize hv : MonsterScraperUSAEng.convert_radius r = v at c1 c2 ⊢
  generalize hw : MonsterScraperUSAEng.convert_radius v = w at c2 ⊢
  omega

/-- C10: for both locale variants, `_convert_radius` is idempotent and
monotone over all integers, and its value is always one of the locale's
fixed bucket values. -/
theorem convert_radius_algebraic (r r1 r2 : Int) :
    (MonsterScraperCANEng.convert_radius (MonsterScraperCANEng.convert_radius r) =
        MonsterScraperCANEng.convert_radius r) ∧
    (r1 ≤ r2 →
      MonsterScraperCANEng.convert_radius r1 ≤ MonsterScraperCANEng.convert_radius r2) ∧
    MonsterScraperCANEng.convert_radius r ∈ ([0, 5, 10, 20, 50, 100] : List Int) ∧
    (MonsterScraperUSAEng.convert_radius (MonsterScraperUSAEng.convert_radius r) =
        MonsterScraperUSAEng.convert_radius r) ∧
    (r1 ≤ r2 →
      MonsterScraperUSAEng.convert_radius r1 ≤ MonsterScraperUSAEng.convert_radius r2) ∧
    MonsterScraperUSAEng.convert_radius r ∈
      ([0, 5, 10, 20, 30, 40, 50, 60, 75, 100, 150, 200] : List Int) :=
  ⟨can_radius_idem r, can_radius_mono r1 r2, can_radius_mem r,
   usa_radius_idem r, usa_radius_mono r1 r2, usa_radius_mem r⟩

/-- Witness for C10 at r = 7, r1 = 12, r2 = 160. -/
theorem convert_radius_algebraic_witness :
    MonsterScraperCANEng.convert_radius 12 ≤ MonsterScraperCANEng.convert_radius 160 ∧
    MonsterScraperUSAEng.convert_radius 12 ≤ MonsterScraperUSAEng.convert_radius 160 ∧
    MonsterScraperCANEng.convert_radius 7 ∈ ([0, 5, 10, 20, 50, 100] : List Int) :=
  ⟨(convert_radius_algebraic 7 12 160).2.1 (by decide),
   (convert_radius_algebraic 7 12 160).2.2.2.2.1 (by decide),
   (convert_radius_algebraic 7 12 160).2.2.1⟩

theorem buildRecord_mem (e : JobField → Option String) (g s : List JobField)
    (f : JobField) (h : f ∈ g ∨ f ∈ s) : buildRecord e g s f = e f := by
  unfold buildRecord
  rw [if_pos h]

theorem scrapeFragment_isSome_iff (e : JobField → Option String)
    (g s req : List JobField) (hsub : ∀ f ∈ req, f ∈ g ∨ f ∈ s) :
    (scrapeFragment e g s req).isSome = true ↔
      ∀ f ∈ req, (e f).isSome = true := by
  unfold scrapeFragment
  by_cases h : (req.all fun f => (buildRecord e g s f).isSome) = true
  · rw [if_pos h]
    simp only [Option.isSome_some, true_iff]
    intro f hf
    rw [← buildRecord_mem e g s f (hsub f hf)]
    exact List.all_eq_true.mp h f hf
  · rw [if_neg h]
    simp only [Option.isSome_none, Bool.false_eq_true, false_iff]
    intro hall
    apply h
    refine List.all_eq_true.mpr (fun f hf => ?_)
    rw [buildRecord_mem e g s f (hsub f hf)]
    exact hall f hf

theorem buildRecord_post_date_none (e : JobField → Option String)
    (g s : List JobField) (hpd : e JobField.POST_DATE = none) :
    buildRecord e g s JobField.POST_DATE = none := by
  unfold buildRecord
  by_cases h : JobField.POST_DATE ∈ g ∨ JobField.POST_DATE ∈ s
  · rw [if_pos h, hpd]
  · rw [if_neg h]

theorem scrapeFragment_post_date_absent (e : JobField → Option String)
    (g s req : List JobField) (hsub : ∀ f ∈ req, f ∈ g ∨ f ∈ s)
    (hreq : ∀ f ∈ req, (e f).isSome = true)
    (hpd : e JobField.POST_DATE = none) :
    ∃ record, scrapeFragment e g s req = some record ∧
      record JobField.POST_DATE = none := by
  have hs := (scrapeFragment_isSome_iff e g s req hsub).mpr hreq
  unfold scrapeFragment at hs ⊢
  by_cases h : (req.all fun f => (buildRecord e g s f).isSome) = true
  · rw [if_pos h]
    exact ⟨buildRecord e g s, rfl, buildRecord_post_date_none e g s hpd⟩
  · rw [if_neg h] at hs
    simp at hs

/-- C1 (validation modelled from the spec): a JobRecord is produced from a
fragment iff every field in the scraper's `min_required_job_fields` was
successfully extracted; if all required fields extract but the non-required
POST_DATE does not, exactly one record is produced and its POST_DATE is
absent — for both the Monster and the GlassDoor field sets. -/
theorem required_field_policy (extract : JobField → Option String) :
    ((scrapeFragment extract BaseMonsterScraper.job_get_fields
        BaseMonsterScraper.job_set_fields
        BaseMonsterScraper.min_required_job_fields).isSome = true ↔
      ∀ f ∈ BaseMonsterScraper.min_required_job_fields,
        (extract f).isSome = true) ∧
    ((∀ f ∈ BaseMonsterScraper.min_required_job_fields,
        (extract f).isSome = true) →
      extract JobField.POST_DATE = none →
      ∃ record, scrapeFragment extract BaseMonsterScraper.job_get_fields
          BaseMonsterScraper.job_set_fields
          BaseMonsterScraper.min_required_job_fields = some record ∧
        record JobField.POST_DATE = none) ∧
    ((scrapeFragment extract StaticGlassDoorScraper.job_get_fields
        StaticGlassDoorScraper.job_set_fields
        StaticGlassDoorScraper.min_required_job_fields).isSome = true ↔
      ∀ f ∈ StaticGlassDoorScraper.min_required_job_fields,
        (extract f).isSome = true) ∧
    ((∀ f ∈ StaticGlassDoorScraper.min_required_job_fields,
        (extract f).isSome = true) →
      extract JobField.POST_DATE = none →
      ∃ record, scrapeFragment extract StaticGlassDoorScraper.job_get_fields
          StaticGlassDoorScraper.job_set_fields
          StaticGlassDoorScraper.min_required_job_fields = some record ∧
        record JobField.POST_DATE = none) :=
  ⟨scrapeFragment_isSome_iff extract _ _ _ (by decide),
   fun h1 h2 => scrapeFragment_post_date_absent extract _ _ _ (by decide) h1 h2,
   scrapeFragment_isSome_iff extract _ _ _ (by decide),
   fun h1 h2 => scrapeFragment_post_date_absent extract _ _ _ (by decide) h1 h2⟩

/-- Witness for C1 with the oracle that extracts everything but POST_DATE. -/
theorem required_field_policy_witness :
    (∃ record, scrapeFragment sampleExtract BaseMonsterScraper.job_get_fields
        BaseMonsterScraper.job_set_fields
        BaseMonsterScraper.min_required_job_fields = some record ∧
      record JobField.POST_DATE = none) ∧
    (∃ record, scrapeFragment sampleExtract StaticGlassDoorScraper.job_get_fields
        StaticGlassDoorScraper.job_set_fields
        StaticGlassDoorScraper.min_required_job_fields = some record ∧
      record JobField.POST_DATE = none) :=
  ⟨(required_field_policy sampleExtract).2.1 (by decide) (by decide),
   (required_field_policy sampleExtract).2.2.2 (by decide) (by decide)⟩

theorem rat_ceil_eq_ceil (q : ℚ) : Rat.ceil q = ⌈q⌉ := by
  have hfn : ⌊-q⌋ = -⌈q⌉ := Int.floor_neg
  have hfloor : ⌊-q⌋ = (-q).num / ((-q).den : ℤ) := Rat.floor_def
  rw [Rat.neg_num, Rat.neg_den] at hfloor
  have hceil : ⌈q⌉ = -(-q.num / (q.den : ℤ)) := by
    have h1 : -⌊-q⌋ = ⌈q⌉ := by rw [hfn, neg_neg]
    rw [← h1, hfloor]
  rw [hceil]
  unfold Rat.ceil
  by_cases hd : q.den = 1
  · rw [if_pos hd, hd]
    simp
  · rw [if_neg hd]
    have hbpos : (0 : ℤ) < (q.den : ℤ) := by exact_mod_cast q.pos
    have hndvd : ¬ ((q.den : ℤ) ∣ q.num) := by
      intro hdvd
      have h1 : (q.den : ℤ) ∣ (q.num.natAbs : ℤ) := (Int.dvd_natAbs).mpr hdvd
      have h2 : q.den ∣ q.num.natAbs := Int.ofNat_dvd.mp h1
      have h3 : q.den ∣ Nat.gcd q.num.natAbs q.den := Nat.dvd_gcd h2 dvd_rfl
      rw [q.reduced] at h3
      exact hd (Nat.dvd_one.mp h3)
    set a := q.num with ha
    set b := (q.den : ℤ) with hb
    have keya := Int.ediv_add_emod a b
    have keyb := Int.ediv_add_emod (-a) b
    have hra : 0 ≤ a % b := Int.emod_nonneg a (by omega)
    have hrb : 0 ≤ (-a) % b := Int.emod_nonneg (-a) (by omega)
    have hla : a % b < b := Int.emod_lt_of_pos a hbpos
    have hlb : (-a) % b < b := Int.emod_lt_of_pos (-a) hbpos
    have hane : a % b ≠ 0 := fun h => hndvd (Int.dvd_of_emod_eq_zero h)
    set X := a / b with hX
    set Y := (-a) / b with hY
    set r := a % b with hr
    set t := (-a) % b with ht
    generalize hP : b * X = P at keya
    generalize hQ : b * Y = Q at keyb
    have h1 : X + Y < 0 := by
      refine lt_of_mul_lt_mul_left (a := b) ?_ (by omega)
      rw [mul_add, hP, hQ, mul_zero]
      omega
    have h2 : -2 < X + Y := by
      refine lt_of_mul_lt_mul_left (a := b) ?_ (by omega)
      rw [mul_add, hP, hQ]
      omega
    omega

theorem pyCeilDiv_eq (n s : Nat) (hs : 0 < s) :
    pyCeilDiv n s = (n + s - 1) / s := by
  unfold pyCeilDiv
  rw [rat_ceil_eq_ceil, Rat.mkRat_eq_div]
  have hcast : (((n : ℤ) : ℚ)) = (n : ℚ) := by push_cast; ring
  rw [hcast]
  have hsQ : (0 : ℚ) < (s : ℚ) := by exact_mod_cast hs
  have key := Nat.div_add_mod (n + s - 1) s
  have hmlt : (n + s - 1) % s < s := Nat.mod_lt _ hs
  set q := (n + s - 1) / s with hqdef
  set m := (n + s - 1) % s with hmdef
  have hqs : n ≤ q * s ∧ q * s ≤ n + s - 1 := by
    have hcomm : q * s = s * q := Nat.mul_comm q s
    generalize hP : s * q = P at key hcomm
    rw [hcomm]
    omega
  have hceil : ⌈(n : ℚ) / (s : ℚ)⌉ = (q : ℤ) := by
    rw [Int.ceil_eq_iff]
    constructor
    · rw [lt_div_iff₀ hsQ]
      have hexp : (((q : ℤ) : ℚ) - 1) * s = ((q * s : ℕ) : ℚ) - s := by
        push_cast
        ring
      rw [hexp]
      have hlt : q * s < n + s := by omega
      have hltQ : ((q * s : ℕ) : ℚ) < (n : ℚ) + (s : ℚ) := by exact_mod_cast hlt
      linarith
    · rw [div_le_iff₀ hsQ]
      have hleQ : ((n : ℕ) : ℚ) ≤ ((q * s : ℕ) : ℚ) := by exact_mod_cast hqs.1
      push_cast at hleQ ⊢
      linarith
  rw [hceil]
  simp

/-- C4: both planners compute the page count as the exact ceiling of
`total / pageSize`: `pyCeilDiv n s = ceil(n / s) = (n + s - 1) / s` for
`s > 0`, with `n = 230, s = 50` giving 5 and `n = 0` giving 0; the
GlassDoor and Monster planners return exactly this value on a parsed
count. -/
theorem planner_page_count_is_ceil (n s : Nat) (nh : Option String)
    (fr : List Nat) :
    (0 < s → pyCeilDiv n s = (n + s - 1) / s) ∧
    pyCeilDiv 230 50 = 5 ∧
    pyCeilDiv 0 s = 0 ∧
    (∀ ts : String, gdExtractNumRes ts = some n →
      gdGetNumSearchResultPages ⟨some ts, nh, fr⟩ s = .ok (pyCeilDiv n s)) ∧
    (∀ (w : MonWorld) (su ts : String) (pg : MonPage),
      w.get su = some pg → pg.countText = some ts →
      monsterExtractNumRes ts = some n →
      monGetNumSearchResultPages w su =
        .ok (pyCeilDiv n MAX_RESULTS_PER_MONSTER_PAGE)) := by
  refine ⟨fun hs => pyCeilDiv_eq n s hs, ?_, ?_, ?_, ?_⟩
  · decide
  · unfold pyCeilDiv
    rw [rat_ceil_eq_ceil, Rat.mkRat_eq_div]
    simp
  · intro ts hts
    simp [gdGetNumSearchResultPages, hts]
  · intro w su ts pg hget hct hparse
    simp [monGetNumSearchResultPages, hget, hct, hparse]

/-- Witness for C4 at n = 230, s = 50 and a concrete planner input. -/
theorem planner_page_count_is_ceil_witness :
    pyCeilDiv 230 50 = (230 + 50 - 1) / 50 ∧
    pyCeilDiv 230 50 = 5 ∧
    pyCeilDiv 0 50 = 0 ∧
    gdGetNumSearchResultPages ⟨some "230 jobs", none, []⟩ 50 =
      .ok (pyCeilDiv 230 50) :=
  ⟨(planner_page_count_is_ceil 230 50 none []).1 (by decide),
   (planner_page_count_is_ceil 230 50 none []).2.1,
   (planner_page_count_is_ceil 230 50 none []).2.2.1,
   (planner_page_count_is_ceil 230 50 none []).2.2.2.1 "230 jobs" (by decide)⟩

/-- Witness for C8 at the KEY_ID field. -/
theorem extraction_spec_invariant_witness :
    (JobField.KEY_ID ∈ BaseMonsterScraper.job_get_fields ∨
      JobField.KEY_ID ∈ BaseMonsterScraper.job_set_fields) ∧
    (JobField.KEY_ID ∈ StaticGlassDoorScraper.job_get_fields ∨
      JobField.KEY_ID ∈ StaticGlassDoorScraper.job_set_fields) :=
  ⟨extraction_spec_invariant.1 JobField.KEY_ID (by decide),
   extraction_spec_invariant.2.2.1 JobField.KEY_ID (by decide)⟩

theorem firstDigitRun_eq_none_iff (cs : List Char) :
    firstDigitRun cs = none ↔ ∀ c ∈ cs, c.isDigit = false := by
  induction cs with
  | nil => simp [firstDigitRun]
  | cons c cs ih =>
    by_cases h : c.isDigit
    · simp [firstDigitRun, h]
    · simp only [Bool.not_eq_true] at h
      simp [firstDigitRun, h, ih]

theorem ws_not_digit (c : Char) (h : c.isWhitespace = true) :
    c.isDigit = false := by
  have hd : c.isWhitespace = (c = ' ' || c = '\t' || c = '\r' || c = '\n') := rfl
  rw [hd] at h
  simp only [Bool.or_eq_true, decide_eq_true_eq] at h
  rcases h with ((h | h) | h) | h <;> rw [h] <;> decide

theorem mem_dropWhile_of_not (p : Char → Bool) (l : List Char) (c : Char)
    (hc : c ∈ l) (hp : p c = false) : c ∈ l.dropWhile p := by
  induction l with
  | nil => cases hc
  | cons a t ih =>
    rw [List.dropWhile_cons]
    rcases List.mem_cons.mp hc with rfl | hct
    · rw [hp]
      simp
    · by_cases ha : p a
      · rw [if_pos ha]
        exact ih hct
      · rw [if_neg ha]
        exact List.mem_cons_of_mem a hct

theorem mem_pyStrip_of (c : Char) (cs : List Char) (hc : c ∈ cs)
    (hw : c.isWhitespace = false) : c ∈ pyStrip cs := by
  unfold pyStrip
  rw [List.mem_reverse]
  apply mem_dropWhile_of_not _ _ _ _ hw
  rw [List.mem_reverse]
  exact mem_dropWhile_of_not _ _ _ hc hw

theorem mem_of_mem_pyStrip (c : Char) (cs : List Char) (hc : c ∈ pyStrip cs) :
    c ∈ cs := by
  unfold pyStrip at hc
  rw [List.mem_reverse] at hc
  have h1 := (List.dropWhile_sublist _).mem hc
  rw [List.mem_reverse] at h1
  exact (List.dropWhile_sublist _).mem h1

theorem noDigit_pyStrip_iff (cs : List Char) :
    (∀ c ∈ pyStrip cs, c.isDigit = false) ↔ ∀ c ∈ cs, c.isDigit = false := by
  constructor
  · intro h c hc
    by_cases hw : c.isWhitespace
    · exact ws_not_digit c hw
    · exact h c (mem_pyStrip_of c cs hc (by simpa using hw))
  · intro h c hc
    exact h c (mem_of_mem_pyStrip c cs hc)

theorem monsterExtract_none_iff (s : String) :
    monsterExtractNumRes s = none ↔ ∀ c ∈ s.data, c.isDigit = false := by
  unfold monsterExtractNumRes
  rw [Option.map_eq_none', firstDigitRun_eq_none_iff, noDigit_pyStrip_iff]

theorem gdExtract_none_iff (s : String) :
    gdExtractNumRes s = none ↔ ∀ c ∈ s.data, c.isDigit = false := by
  unfold gdExtractNumRes
  rw [Option.map_eq_none', firstDigitRun_eq_none_iff]
  constructor
  · intro h c hc
    by_cases hcomma : c = ','
    · rw [hcomma]
      decide
    · by_cases hw : c.isWhitespace
      · exact ws_not_digit c hw
      · refine h c ?_
        rw [List.mem_filter]
        refine ⟨mem_pyStrip_of c s.data hc (by simpa using hw), ?_⟩
        simpa using hcomma
  · intro h c hc
    rw [List.mem_filter] at hc
    exact h c (mem_of_mem_pyStrip c s.data hc.1)

theorem matchIPAt_cons_ne (c : Char) (t : List Char) (h : ¬(c = '_')) :
    matchIPAt (c :: t) = none := by
  cases t with
  | nil => rfl
  | cons b t2 =>
    cases t2 with
    | nil => rfl
    | cons d t3 =>
      exact if_neg (fun hand => h hand.1)

theorem subIPAux_no_match (repl : List Char) (fuel : Nat) (cs : List Char)
    (h : hasIPMatch cs = false) : subIPAux repl fuel cs = cs := by
  induction fuel generalizing cs with
  | zero => rfl
  | succ fuel ih =>
    cases cs with
    | nil => rfl
    | cons c t =>
      simp only [hasIPMatch, Bool.or_eq_false_iff] at h
      obtain ⟨h1, h2⟩ := h
      have hm : matchIPAt (c :: t) = none := by
        cases hmm : matchIPAt (c :: t)
        · rfl
        · rw [hmm] at h1
          simp at h1
      show subIPAux repl (fuel + 1) (c :: t) = c :: t
      unfold subIPAux
      rw [hm, ih t h2]

theorem pySubIP_no_match (p : Nat) (s : String)
    (h : hasIPMatch s.data = false) : pySubIP p s = s := by
  unfold pySubIP
  rw [subIPAux_no_match _ _ _ h]

theorem hasIPMatch_append (xs ys : List Char) (h : ∀ c ∈ xs, ¬(c = '_')) :
    hasIPMatch (xs ++ ys) = hasIPMatch ys := by
  induction xs with
  | nil => rfl
  | cons c t ih =>
    simp only [List.cons_append, hasIPMatch]
    rw [matchIPAt_cons_ne c _ (h c (List.mem_cons_self c t))]
    simp only [Option.isSome_none, Bool.false_or]
    exact ih (fun a ha => h a (List.mem_cons_of_mem c ha))

theorem gdPageUrl_const (domain part : String) (p : Nat)
    (hdom : ∀ c ∈ domain.data, ¬(c = '_'))
    (hpart : hasIPMatch part.data = false) :
    gdPageUrl domain part p = gdFullNextUrl domain part := by
  unfold gdPageUrl
  apply pySubIP_no_match
  unfold gdFullNextUrl
  rw [String.data_append, String.data_append, List.append_assoc]
  rw [hasIPMatch_append _ _ (by decide)]
  rw [hasIPMatch_append _ _ hdom]
  exact hpart

theorem gdProcessPages_ok (w : GDWorld) (u1 : String) (soup : GDPage)
    (pu : String) (h : soup.nextHref = some pu) (ps : List Nat) :
    gdProcessPages w u1 soup ps =
      .ok ((ps.map (gdPageFetch w u1 pu)).flatten,
        ps.map (gdPageUrlOf w u1 pu)) := by
  induction ps with
  | nil => rfl
  | cons p rest ih =>
    unfold gdProcessPages
    by_cases hp : p = 1
    · rw [if_pos hp, ih]
      simp [gdPageFetch, gdPageUrlOf, hp]
    · rw [if_neg hp, h, ih]
      simp [gdPageFetch, gdPageUrlOf, hp]

theorem gdScrapeListings_ok (w : GDWorld) (su : String) (ps : Nat)
    (u1 : String) (soup : GDPage) (n : Nat) (pu : String)
    (hpost : w.postFirst = some (u1, soup))
    (hplan : gdGetNumSearchResultPages soup ps = .ok n)
    (hnext : soup.nextHref = some pu) :
    gdScrapeListings w su ps =
      .ok (((List.range' 1 n).map (gdPageFetch w u1 pu)).flatten,
        su :: (List.range' 1 n).map (gdPageUrlOf w u1 pu)) := by
  unfold gdScrapeListings
  simp only [hpost, hplan, gdProcessPages_ok w u1 soup pu hnext]

theorem gdProcessPages_noNextLink (w : GDWorld) (u1 : String) (soup : GDPage)
    (hnext : soup.nextHref = none) (p : Nat) (hp : ¬(p = 1))
    (rest : List Nat) :
    gdProcessPages w u1 soup (p :: rest) = .error .noNextLink := by
  unfold gdProcessPages
  rw [if_neg hp, hnext]

theorem gdProcessPages_cons_one_error (w : GDWorld) (u1 : String)
    (soup : GDPage) (rest : List Nat) (e : ScrapeError)
    (h : gdProcessPages w u1 soup rest = .error e) :
    gdProcessPages w u1 soup (1 :: rest) = .error e := by
  unfold gdProcessPages
  rw [if_pos rfl, h]

theorem range'_map_const {α : Type} (k : Nat) (f : Nat → α) (c : α) :
    ∀ a, 2 ≤ a → (∀ p, 2 ≤ p → f p = c) →
      (List.range' a k).map f = List.replicate k c := by
  induction k with
  | zero => intro a _ _; rfl
  | succ k ih =>
    intro a ha hf
    rw [List.range'_succ a k 1, List.map_cons, hf a ha,
      ih (a + 1) (by omega) hf]
    rfl

/-- C3 (code bug) evaluated at the failing input: a Monster search
reporting 26 results plans 2 pages (and logs so), but the scrape performs a
single fetch of `SU&start=2` and returns only that page's fragments;
page 1's fragment 1 is absent and no other page is ever fetched. -/
theorem monster_single_page_scrape :
    monGetNumSearchResultPages monTwoPageWorld "SU" = .ok 2 ∧
    monScrapeListings monTwoPageWorld "SU" =
      .ok ([2], ["SU", "SU&start=2"]) :=
  ⟨rfl, rfl⟩

/-- C5 counterexample: a Monster scrape whose planning on page 1 succeeded
(2 planned pages) and in which exactly one page fetch fails (the single
listings fetch at `SU&start=2`) raises instead of returning the other
pages' fragments. -/
theorem single_page_failure_aborts_monster :
    monGetNumSearchResultPages monFailWorld "SU" = .ok 2 ∧
    monScrapeListings monFailWorld "SU" = .error .transport :=
  ⟨rfl, rfl⟩

/-- C5 amended: for GlassDoor, page-worker fetch failures never escape:
whenever the POST, the planner and the next link succeed, the call returns
`ok` and aggregates page by page, a failed page contributing no fragments;
for Monster, a transport failure on the single listings URL it fetches
propagates and aborts the call. -/
theorem page_failure_partial_result (w : GDWorld) (su : String) (ps : Nat)
    (u1 : String) (soup : GDPage) (n : Nat) (pu : String)
    (mw : MonWorld) (msu : String) (p : Nat) :
    (w.postFirst = some (u1, soup) →
      gdGetNumSearchResultPages soup ps = .ok n →
      soup.nextHref = some pu →
      gdScrapeListings w su ps =
        .ok (((List.range' 1 n).map (gdPageFetch w u1 pu)).flatten,
          su :: (List.range' 1 n).map (gdPageUrlOf w u1 pu))) ∧
    (monGetNumSearchResultPages mw msu = .ok p →
      mw.get (msu ++ "&start=" ++ toString p) = none →
      monScrapeListings mw msu = .error .transport) := by
  constructor
  · intro h1 h2 h3
    exact gdScrapeListings_ok w su ps u1 soup n pu h1 h2 h3
  · intro h1 h2
    unfold monScrapeListings monGetJobSoupsFromSearchPage
    simp only [h1, h2]

/-- Witness for C5: a three-page GlassDoor scrape in which exactly the
page-3 fetch fails still returns `ok`, aggregating pages 1 and 2. -/
theorem page_failure_partial_result_witness :
    gdScrapeListings gdOneFailWorld "SU" 25 =
      .ok (((List.range' 1 3).map
          (gdPageFetch gdOneFailWorld "SU" "_IP1.htm")).flatten,
        "SU" :: (List.range' 1 3).map
          (gdPageUrlOf gdOneFailWorld "SU" "_IP1.htm")) ∧
    ((List.range' 1 3).map (gdPageFetch gdOneFailWorld "SU" "_IP1.htm")).flatten
      = [8, 9] :=
  ⟨(page_failure_partial_result gdOneFailWorld "SU" 25 "SU"
      ⟨some "75 jobs", some "_IP1.htm", [8]⟩ 3 "_IP1.htm"
      ⟨fun _ => none⟩ "" 0).1 rfl rfl rfl,
   rfl⟩

/-- C6 counterexample: with a perfectly parsable count indicator
("87 jobs", 3 pages at size 30) but a missing next link, the scrape escapes
with a planning failure other than ResultCountUnparsable. -/
theorem planner_error_escape_counterexample :
    gdExtractNumRes "87 jobs" = some 87 ∧
    gdScrapeListings gdNoNextWorld "SU" 30 = .error .noNextLink ∧
    ScrapeError.noNextLink ≠ ScrapeError.resultCountUnparsable :=
  ⟨rfl, rfl, by decide⟩

/-- C6 amended: given the count-indicator text, the page-count computation
fails iff the text contains no run of digits, and that failure escapes the
scrape as a hard failure (for both scrapers) — but it is not the only
planning failure that escapes: with at least two planned pages, a missing
next-page link also escapes as an uncaught error. -/
theorem result_count_unparsable_policy (s : String) (w : GDWorld)
    (su : String) (ps : Nat) (u1 : String) (soup : GDPage) (t : String)
    (n : Nat) (mw : MonWorld) (msu mt : String) (pg : MonPage) :
    (monsterExtractNumRes s = none ↔ ∀ c ∈ s.data, c.isDigit = false) ∧
    (gdExtractNumRes s = none ↔ ∀ c ∈ s.data, c.isDigit = false) ∧
    (w.postFirst = some (u1, soup) → soup.jobsCountText = some t →
      gdExtractNumRes t = none →
      gdScrapeListings w su ps = .error .resultCountUnparsable) ∧
    (w.postFirst = some (u1, soup) →
      gdGetNumSearchResultPages soup ps = .ok n → 2 ≤ n →
      soup.nextHref = none →
      gdScrapeListings w su ps = .error .noNextLink) ∧
    (mw.get msu = some pg → pg.countText = some mt →
      monsterExtractNumRes mt = none →
      monScrapeListings mw msu = .error .resultCountUnparsable) := by
  refine ⟨monsterExtract_none_iff s, gdExtract_none_iff s, ?_, ?_, ?_⟩
  · intro h1 h2 h3
    unfold gdScrapeListings gdGetNumSearchResultPages
    simp only [h1, h2, h3]
  · intro h1 h2 h3 h4
    obtain ⟨k, rfl⟩ : ∃ k, n = k + 2 := ⟨n - 2, by omega⟩
    unfold gdScrapeListings
    simp only [h1, h2]
    have hr : List.range' 1 (k + 2) = 1 :: 2 :: List.range' 3 k := by
      simp [List.range'_succ]
    rw [hr, gdProcessPages_cons_one_error _ _ _ _ _
      (gdProcessPages_noNextLink w u1 soup h4 2 (by decide) _)]
  · intro h1 h2 h3
    unfold monScrapeListings monGetNumSearchResultPages
    simp only [h1, h2, h3]

/-- Witness for C6 at concrete fixtures. -/
theorem result_count_unparsable_policy_witness :
    gdExtractNumRes "no jobs found" = none ∧
    gdScrapeListings gdUnparsableWorld "SU" 30 =
      .error .resultCountUnparsable ∧
    gdScrapeListings gdNoNextWorld "SU" 30 = .error .noNextLink :=
  ⟨(result_count_unparsable_policy "no jobs found" gdUnparsableWorld "SU" 30
      "SU" ⟨some "no jobs found", some "/x.htm", [5]⟩ "no jobs found" 3
      ⟨fun _ => none⟩ "" "" ⟨none, []⟩).2.1.mpr (by decide),
   (result_count_unparsable_policy "no jobs found" gdUnparsableWorld "SU" 30
      "SU" ⟨some "no jobs found", some "/x.htm", [5]⟩ "no jobs found" 3
      ⟨fun _ => none⟩ "" "" ⟨none, []⟩).2.2.1 rfl rfl (by decide),
   (result_count_unparsable_policy "no jobs found" gdNoNextWorld "SU" 30
      "SU" ⟨some "87 jobs", none, [10]⟩ "87 jobs" 3
      ⟨fun _ => none⟩ "" "" ⟨none, []⟩).2.2.2.1 rfl rfl (by decide) rfl⟩

/-- C7 counterexample: in a one-page GlassDoor scrape the page-1 URL `SU`
is fetched twice — by the planning POST and again by the page-1 worker. -/
theorem page_one_double_fetch_counterexample :
    gdScrapeListings gdDoubleFetchWorld "SU" 25 = .ok ([7], ["SU", "SU"]) ∧
    (["SU", "SU"].count "SU" = 2) :=
  ⟨rfl, rfl⟩

/-- C7 amended: GlassDoor fetches page 1 twice — the planning POST of the
search URL, then the page-1 worker GET of the response URL, the fragments
coming from that second fetch; Monster fetches the search URL once for
planning, discards its fragments, and takes its fragments from the single
different URL `search_url&start=N`. -/
theorem page_one_fetch_pattern (w : GDWorld) (su : String) (ps : Nat)
    (u1 : String) (soup : GDPage) (n : Nat) (pu : String)
    (mw : MonWorld) (msu : String) (p : Nat) (pg : MonPage) :
    (w.postFirst = some (u1, soup) →
      gdGetNumSearchResultPages soup ps = .ok (n + 1) →
      soup.nextHref = some pu →
      gdScrapeListings w su ps =
        .ok (((List.range' 1 (n + 1)).map (gdPageFetch w u1 pu)).flatten,
          su :: u1 :: (List.range' 2 n).map (gdPageUrlOf w u1 pu))) ∧
    (monGetNumSearchResultPages mw msu = .ok p →
      mw.get (msu ++ "&start=" ++ toString p) = some pg →
      monScrapeListings mw msu =
        .ok (pg.fragments, [msu, msu ++ "&start=" ++ toString p])) := by
  constructor
  · intro h1 h2 h3
    rw [gdScrapeListings_ok w su ps u1 soup (n + 1) pu h1 h2 h3]
    have hr : List.range' 1 (n + 1) = 1 :: List.range' 2 n := by
      simp [List.range'_succ]
    rw [hr]
    simp [gdPageUrlOf]
  · intro h1 h2
    unfold monScrapeListings monGetJobSoupsFromSearchPage
    simp only [h1, h2]

/-- Witness for C7 at the double-fetch fixture. -/
theorem page_one_fetch_pattern_witness :
    gdScrapeListings gdDoubleFetchWorld "SU" 25 =
      .ok (((List.range' 1 1).map
          (gdPageFetch gdDoubleFetchWorld "SU" "/x.htm")).flatten,
        "SU" :: "SU" ::
          (List.range' 2 0).map (gdPageUrlOf gdDoubleFetchWorld "SU" "/x.htm")) :=
  (page_one_fetch_pattern gdDoubleFetchWorld "SU" 25 "SU"
      ⟨some "1 job", some "/x.htm", [7]⟩ 0 "/x.htm"
      ⟨fun _ => none⟩ "" 0 ⟨none, []⟩).1 rfl rfl rfl

/-- C9: if the next-link href contains no `_IP<digits>.` token (the domain
itself containing no underscore), the page-index substitution replaces
nothing, so every page index is mapped to the identical URL; the scrape
then fetches that same URL for each of the `n` pages beyond the first and
its fragments appear `n` times in the aggregate fragment list. -/
theorem ip_substitution_identity (w : GDWorld) (su : String) (ps : Nat)
    (u1 : String) (soup : GDPage) (n : Nat) (pu : String)
    (hdom : ∀ c ∈ w.domain.data, ¬(c = '_'))
    (hpart : hasIPMatch pu.data = false) :
    (∀ p q : Nat, gdPageUrl w.domain pu p = gdPageUrl w.domain pu q) ∧
    (w.postFirst = some (u1, soup) →
      gdGetNumSearchResultPages soup ps = .ok (n + 1) →
      soup.nextHref = some pu →
      gdScrapeListings w su ps =
        .ok (gdWorkerFetch w u1 ++
            (List.replicate n
              (gdWorkerFetch w (gdFullNextUrl w.domain pu))).flatten,
          su :: u1 :: List.replicate n (gdFullNextUrl w.domain pu))) := by
  constructor
  · intro p q
    rw [gdPageUrl_const _ _ p hdom hpart, gdPageUrl_const _ _ q hdom hpart]
  · intro h1 h2 h3
    rw [gdScrapeListings_ok w su ps u1 soup (n + 1) pu h1 h2 h3]
    have hr : List.range' 1 (n + 1) = 1 :: List.range' 2 n := by
      simp [List.range'_succ]
    have hfetch : (List.range' 2 n).map (gdPageFetch w u1 pu) =
        List.replicate n (gdWorkerFetch w (gdFullNextUrl w.domain pu)) := by
      refine range'_map_const n _ _ 2 (by decide) ?_
      intro p hp
      unfold gdPageFetch gdPageUrlOf
      rw [if_neg (by omega), gdPageUrl_const _ _ p hdom hpart]
    have hurl : (List.range' 2 n).map (gdPageUrlOf w u1 pu) =
        List.replicate n (gdFullNextUrl w.domain pu) := by
      refine range'_map_const n _ _ 2 (by decide) ?_
      intro p hp
      unfold gdPageUrlOf
      rw [if_neg (by omega), gdPageUrl_const _ _ p hdom hpart]
    rw [hr, List.map_cons, List.map_cons, hfetch, hurl]
    simp [gdPageFetch, gdPageUrlOf]

/-- Witness for C9 at the duplicate-page fixture: 3 planned pages, an href
without the `_IP` token, pages 2 and 3 both fetching the identical URL. -/
theorem ip_substitution_identity_witness :
    gdScrapeListings gdDupWorld "SU" 25 =
      .ok (gdWorkerFetch gdDupWorld "SU" ++
          (List.replicate 2 (gdWorkerFetch gdDupWorld
            (gdFullNextUrl gdDupWorld.domain "/Jobs/x.htm"))).flatten,
        "SU" :: "SU" ::
          List.replicate 2 (gdFullNextUrl gdDupWorld.domain "/Jobs/x.htm")) :=
  (ip_substitution_identity gdDupWorld "SU" 25 "SU"
      ⟨some "75 jobs", some "/Jobs/x.htm", [8]⟩ 2 "/Jobs/x.htm"
      (by decide) (by decide)).2 rfl rfl rfl
